import Mathlib

/-!
Verification of the user-directory view (`src/App.tsx`).

The component keeps three pieces of load state (`users`, `loading`, `error`),
three filter inputs (`search`, `city`, `company`), and derives option lists
and a filtered list from them.  We embed the data model, the filter engine,
the fetch-effect's state transitions and the relevant render conditions as
executable Lean definitions and prove the specified properties about them.
-/

/-- The nested `address` group of a user record; only `city` is used. -/
structure Address where
  city : String
deriving DecidableEq

/-- The nested `company` group of a user record; only `name` is used. -/
structure Company where
  name : String
deriving DecidableEq

/-- A user record as declared by `interface User` in `App.tsx`. -/
structure User where
  id : Nat
  name : String
  email : String
  address : Address
  company : Company
  phone : String
  website : String
deriving DecidableEq

/-- Boolean test that the first character list is a leading segment of the
second; models JavaScript `String.prototype.startsWith` on code units. -/
def listLeads : List Char → List Char → Bool
  | [], _ => true
  | _ :: _, [] => false
  | a :: as, b :: bs => a == b && listLeads as bs

/-- Boolean test that `needle` occurs as a contiguous run inside the second
list; models JavaScript `String.prototype.includes`. -/
def listHas (needle : List Char) : List Char → Bool
  | [] => listLeads needle []
  | c :: rest => listLeads needle (c :: rest) || listHas needle rest

/-- String containment: `strIncludes hay needle` models `hay.includes(needle)`. -/
def strIncludes (hay needle : String) : Bool :=
  listHas needle.data hay.data

/-- Character-wise lower-casing; models `String.prototype.toLowerCase`. -/
def strLower (s : String) : String :=
  ⟨s.data.map Char.toLower⟩

/-- Removal of leading and trailing whitespace; models `String.prototype.trim`. -/
def strTrim (s : String) : String :=
  ⟨((s.data.dropWhile Char.isWhitespace).reverse.dropWhile Char.isWhitespace).reverse⟩

/-- The memoized `filteredUsers` computation of `App.tsx` (lines 68-76):
trim and lower-case the search text, then keep the users passing the AND of
the three predicates, each disabled when its filter input is empty. -/
def filteredUsers (users : List User) (search city company : String) : List User :=
  let s := strLower (strTrim search)
  users.filter (fun u =>
    (if s = "" then true else strIncludes (strLower u.name) s) &&
    (if city = "" then true else u.address.city == city) &&
    (if company = "" then true else u.company.name == company))

/-- The memoized `cityOptions` (lines 58-61): distinct city values of the
source collection, sorted ascending.  JavaScript `Array.from(new Set(...))`
deduplicates and `.sort()` sorts lexicographically; on distinct strings the
sorted result is unique, so `dedup` followed by insertion sort models it. -/
def cityOptions (users : List User) : List String :=
  ((users.map (fun u => u.address.city)).dedup).insertionSort (fun a b => a ≤ b)

/-- The memoized `companyOptions` (lines 62-65), same construction over the
company names. -/
def companyOptions (users : List User) : List String :=
  ((users.map (fun u => u.company.name)).dedup).insertionSort (fun a b => a ≤ b)

/-- The three filter inputs held in component state. -/
structure FilterState where
  search : String
  city : String
  company : String
deriving DecidableEq

/-- The `clearAll` handler (lines 78-82): resets all three filter fields to
the empty string. -/
def clearAll (_fs : FilterState) : FilterState :=
  { search := "", city := "", company := "" }

/-- Link URL for the website field (lines 205-207): used unchanged when it
starts with `"http"`, otherwise `"https://"` is prepended. -/
def siteUrl (website : String) : String :=
  if listLeads "http".data website.data then website else "https://" ++ website

/-- The load state owned by the component: the fetched collection, the
loading flag and the error message (`null` modelled as `none`). -/
structure LoadState where
  users : List User
  loading : Bool
  error : Option String
deriving DecidableEq

/-- State at the top of the effect body, after `setLoading(true)` and
`setError(null)` (lines 30-31) with the initial empty collection. -/
def initState : LoadState :=
  { users := [], loading := true, error := none }

/-- The `catch` handler (lines 43-46): ignore errors named `"AbortError"`,
otherwise store `err.message`, or the fallback string when the error carries
no message (`err?.message ?? "Failed to load users"`). -/
def catchHandler (errName : String) (errMsg : Option String) (st : LoadState) : LoadState :=
  if errName = "AbortError" then st
  else { st with error := some (errMsg.getD "Failed to load users") }

/-- The `finally` block (lines 47-51): flip the loading flag off unless the
abort signal has fired. -/
def finallyHandler (aborted : Bool) (st : LoadState) : LoadState :=
  if aborted then st else { st with loading := false }

/-- The distinguishable executions of one load cycle of the effect
(lines 26-55): the request aborted in flight, a non-success HTTP status, a
non-abort failure carrying an error name and optional message, completion
with data, or completion with the teardown abort arriving while the 3000 ms
timer is pending. -/
inductive Scenario where
  | abortDuringFetch
  | httpError (status : Nat)
  | failure (errName : String) (errMsg : Option String)
  | completeNoAbort (data : List User)
  | abortDuringDelay (data : List User)
deriving DecidableEq

/-- State transitions performed by one load cycle, per scenario, mirroring
the effect body.  An aborted fetch rejects with an `"AbortError"`; a
non-success status throws `new Error("HTTP <status>")` whose name is
`"Error"` and whose message is the template string; a successful fetch
stores the data with `setUsers(data)` — note the 3000 ms timer promise is
not attached to the abort signal, so `setUsers(data)` runs even when the
abort arrived during the delay, while the guarded `finally` skips
`setLoading(false)`. -/
def runLoadCycle : Scenario → LoadState
  | .abortDuringFetch =>
      finallyHandler true (catchHandler "AbortError" (some "The operation was aborted.") initState)
  | .httpError status =>
      finallyHandler false (catchHandler "Error" (some ("HTTP " ++ toString status)) initState)
  | .failure errName errMsg =>
      finallyHandler false (catchHandler errName errMsg initState)
  | .completeNoAbort data =>
      finallyHandler false { initState with users := data }
  | .abortDuringDelay data =>
      finallyHandler true { initState with users := data }

/-- JavaScript truthiness of the `error` state (`string | null`): truthy
exactly when non-null and non-empty. -/
def errTruthy : Option String → Bool
  | none => false
  | some m => !(m == "")

/-- Render condition of the error block (lines 195-199): `{error && ...}`. -/
def showErrorIndicator (st : LoadState) : Bool :=
  errTruthy st.error

/-- Render condition of the no-results block (lines 241-245):
`!loading && !error && users.length > 0 && filteredUsers.length === 0`. -/
def showNoResults (st : LoadState) (search city company : String) : Bool :=
  !st.loading && !errTruthy st.error && decide (0 < st.users.length) &&
    ((filteredUsers st.users search city company).length == 0)

/-- Sample record mirroring the first entry served by the fixed endpoint. -/
def sampleUser : User :=
  { id := 1, name := "Leanne Graham", email := "Sincere@april.biz",
    address := { city := "Gwenborough" }, company := { name := "Romaguera-Crona" },
    phone := "1-770-736-8031", website := "hildegard.org" }

/-- Record with an empty city value, used to probe edge behaviour of the
option lists. -/
def emptyCityUser : User :=
  { id := 2, name := "Ervin Howell", email := "Shanna@melissa.tv",
    address := { city := "" }, company := { name := "Deckow-Crist" },
    phone := "010-692-6593", website := "anastasia.net" }

/-! ### Helper lemmas -/

/-- An empty needle occurs in every character list. -/
theorem listHas_nil_needle (hay : List Char) : listHas [] hay = true := by
  cases hay <;> simp [listHas, listLeads]

/-- Every string contains the empty string, as in JavaScript `includes`. -/
theorem strIncludes_empty_needle (hay : String) : strIncludes hay "" = true :=
  listHas_nil_needle hay.data

/-- An equality filter guarded by JavaScript truthiness of the selected
value passes exactly when the value is empty or the field matches. -/
theorem if_empty_beq_iff (c v : String) :
    (if c = "" then true else (v == c)) = true ↔ (c = "" ∨ v = c) := by
  by_cases h : c = ""
  · simp [h]
  · simp [h, beq_iff_eq]

/-- Membership in the derived city option list is membership among the
city values of the source collection. -/
theorem cityOptions_mem (users : List User) (x : String) :
    x ∈ cityOptions users ↔ x ∈ users.map (fun u => u.address.city) := by
  unfold cityOptions
  rw [List.mem_insertionSort, List.mem_dedup]

/-- Membership in the derived company option list is membership among the
company names of the source collection. -/
theorem companyOptions_mem (users : List User) (x : String) :
    x ∈ companyOptions users ↔ x ∈ users.map (fun u => u.company.name) := by
  unfold companyOptions
  rw [List.mem_insertionSort, List.mem_dedup]

/-! ### Claim theorems -/

/-- C1: for every source collection and filter state, a user record is in
`filteredUsers` iff it is in the source and (1) the name query is empty or
the lower-cased name contains the lower-cased trimmed query, (2) the
selected city is empty or equals the record's city exactly, and (3) the
selected company is empty or equals the record's company name exactly. -/
theorem mem_filteredUsers_iff (users : List User) (q c co : String) (u : User) :
    u ∈ filteredUsers users q c co ↔
      u ∈ users ∧
      (q = "" ∨ strIncludes (strLower u.name) (strLower (strTrim q)) = true) ∧
      (c = "" ∨ u.address.city = c) ∧
      (co = "" ∨ u.company.name = co) := by
  simp only [filteredUsers, List.mem_filter, Bool.and_eq_true]
  constructor
  · rintro ⟨hu, ⟨h1, h2⟩, h3⟩
    refine ⟨hu, ?_, (if_empty_beq_iff c u.address.city).1 h2,
      (if_empty_beq_iff co u.company.name).1 h3⟩
    by_cases hs : strLower (strTrim q) = ""
    · exact Or.inr (by rw [hs]; exact strIncludes_empty_needle _)
    · rw [if_neg hs] at h1
      exact Or.inr h1
  · rintro ⟨hu, h1, h2, h3⟩
    refine ⟨hu, ⟨?_, (if_empty_beq_iff c u.address.city).2 h2⟩,
      (if_empty_beq_iff co u.company.name).2 h3⟩
    by_cases hs : strLower (strTrim q) = ""
    · rw [if_pos hs]
    · rw [if_neg hs]
      rcases h1 with h1 | h1
      · subst h1
        exact absurd (by decide) hs
      · exact h1

/-- C4: for every source collection, `cityOptions` and `companyOptions`
have no duplicates, are sorted ascending, and contain exactly the city
(resp. company-name) values occurring in the source collection. -/
theorem options_nodup_sorted_complete (users : List User) :
    (cityOptions users).Nodup ∧
    List.Sorted (fun a b : String => a ≤ b) (cityOptions users) ∧
    (∀ x, x ∈ cityOptions users ↔ x ∈ users.map (fun u => u.address.city)) ∧
    (companyOptions users).Nodup ∧
    List.Sorted (fun a b : String => a ≤ b) (companyOptions users) ∧
    (∀ x, x ∈ companyOptions users ↔ x ∈ users.map (fun u => u.company.name)) := by
  refine ⟨?_, ?_, cityOptions_mem users, ?_, ?_, companyOptions_mem users⟩
  · exact ((List.perm_insertionSort _ _).nodup_iff).2 (List.nodup_dedup _)
  · exact List.sorted_insertionSort _ _
  · exact ((List.perm_insertionSort _ _).nodup_iff).2 (List.nodup_dedup _)
  · exact List.sorted_insertionSort _ _

/-- C5: clearing all filters (the `clearAll` action resets all three fields
to the empty string) yields `filteredUsers` equal to the full source
collection, for every source collection and prior filter state. -/
theorem clearAll_filteredUsers (users : List User) (fs : FilterState) :
    filteredUsers users (clearAll fs).search (clearAll fs).city (clearAll fs).company
      = users := by
  show filteredUsers users "" "" "" = users
  have hs : strLower (strTrim "") = "" := by decide
  unfold filteredUsers
  refine List.filter_eq_self.2 (fun a _ => ?_)
  simp [hs]

/-- C6: for every source collection and filter state, `filteredUsers` is a
sublist of the source collection: order is preserved and no foreign record
appears. -/
theorem filteredUsers_sublist (users : List User) (q c co : String) :
    List.Sublist (filteredUsers users q c co) users := by
  unfold filteredUsers
  exact List.filter_sublist _

/-- C2 (code bug evidence): when the teardown abort arrives while the
3000 ms delay timer is pending after a successful fetch, the effect still
stores the fetched collection — `setUsers(data)` runs because the timer is
not attached to the abort signal — even though no error is set and the
loading flag is not flipped; aborting during the HTTP request itself is
silent as specified. -/
theorem abortDuringDelay_stores_users :
    (runLoadCycle (Scenario.abortDuringDelay [sampleUser])).users = [sampleUser] ∧
    (runLoadCycle (Scenario.abortDuringDelay [sampleUser])).users ≠ [] ∧
    (runLoadCycle (Scenario.abortDuringDelay [sampleUser])).error = none ∧
    (runLoadCycle (Scenario.abortDuringDelay [sampleUser])).loading = true ∧
    (runLoadCycle Scenario.abortDuringFetch).users = [] ∧
    (runLoadCycle Scenario.abortDuringFetch).error = none ∧
    (runLoadCycle Scenario.abortDuringFetch).loading = true := by
  decide

/-- C3: a non-success HTTP status makes the load cycle fail with the error
message exactly `"HTTP <status>"`, while the source collection — and hence
the filtered collection for every filter state — stays empty. -/
theorem httpError_failed (status : Nat) :
    (runLoadCycle (Scenario.httpError status)).error = some ("HTTP " ++ toString status) ∧
    (runLoadCycle (Scenario.httpError status)).users = [] ∧
    (runLoadCycle (Scenario.httpError status)).loading = false ∧
    ∀ q c co, filteredUsers (runLoadCycle (Scenario.httpError status)).users q c co = [] := by
  have h : ("Error" : String) ≠ "AbortError" := by decide
  refine ⟨?_, ?_, ?_, fun q c co => ?_⟩ <;>
    simp [runLoadCycle, catchHandler, finallyHandler, initState, h, filteredUsers]

/-- C10: a non-abort failure of the load cycle surfaces the exception's own
message verbatim when it has one, and the fixed fallback string
`"Failed to load users"` when it has none. -/
theorem catch_fallback_message (errName : String) (h : errName ≠ "AbortError") :
    (runLoadCycle (Scenario.failure errName none)).error = some "Failed to load users" ∧
    ∀ m : String, (runLoadCycle (Scenario.failure errName (some m))).error = some m := by
  refine ⟨?_, fun m => ?_⟩ <;>
    simp [runLoadCycle, catchHandler, finallyHandler, initState, h]

/-- Witness for `catch_fallback_message` at a concrete error name. -/
theorem catch_fallback_message_witness :
    (runLoadCycle (Scenario.failure "TypeError" none)).error = some "Failed to load users" ∧
    (runLoadCycle (Scenario.failure "TypeError" (some "NetworkError"))).error =
      some "NetworkError" :=
  ⟨(catch_fallback_message "TypeError" (by decide)).1,
   (catch_fallback_message "TypeError" (by decide)).2 "NetworkError"⟩

/-- C7 (amended): on success (loading off, no error) over a non-empty
source collection, when filtering leaves zero records the no-results block
is rendered and the error block is not. -/
theorem noResults_shown (st : LoadState) (q c co : String)
    (h1 : st.loading = false) (h2 : st.error = none) (h3 : st.users ≠ [])
    (h4 : filteredUsers st.users q c co = []) :
    showNoResults st q c co = true ∧ showErrorIndicator st = false := by
  constructor
  · simp [showNoResults, h1, h2, h4, errTruthy]
    exact List.length_pos.2 h3
  · simp [showErrorIndicator, errTruthy, h2]

/-- Witness for `noResults_shown` on a concrete loaded state whose filter
matches nothing. -/
theorem noResults_shown_witness :
    showNoResults { users := [sampleUser], loading := false, error := none } "xyz" "" "" = true ∧
    showErrorIndicator { users := [sampleUser], loading := false, error := none } = false :=
  noResults_shown { users := [sampleUser], loading := false, error := none } "xyz" "" ""
    rfl rfl (by decide) (by decide)

/-- C7 counterexample: after a successful load of an empty collection the
filtered subset is empty, loading is off and no error is set, yet the
no-results block is not rendered because it also requires
`users.length > 0`. -/
theorem noResults_empty_source_cex :
    filteredUsers ([] : List User) "" "" "" = [] ∧
    showNoResults { users := [], loading := false, error := none } "" "" "" = false ∧
    showErrorIndicator { users := [], loading := false, error := none } = false := by
  decide

/-- C8: the website link URL is the website string unchanged when it starts
with `"http"`, and `"https://"` prepended to it otherwise. -/
theorem siteUrl_cases (w : String) :
    (listLeads "http".data w.data = true → siteUrl w = w) ∧
    (listLeads "http".data w.data = false → siteUrl w = "https://" ++ w) := by
  unfold siteUrl
  constructor <;> intro h <;> simp [h]

/-- Witness for `siteUrl_cases` on a scheme-bearing and a bare website. -/
theorem siteUrl_cases_witness :
    siteUrl "http://leanne.example" = "http://leanne.example" ∧
    siteUrl "hildegard.org" = "https://" ++ "hildegard.org" :=
  ⟨(siteUrl_cases "http://leanne.example").1 (by decide),
   (siteUrl_cases "hildegard.org").2 (by decide)⟩

/-- C9 (amended): for every non-empty value `v`, if `v` is a derived city
option then selecting it as the city filter (other filters empty) yields
exactly the records whose city equals `v`, a non-empty result; and,
independently, if `v` is a derived company option then selecting it as the
company filter yields exactly the records whose company name equals `v`, a
non-empty result. -/
theorem optionValue_filter_exact (users : List User) (v : String) (hv : v ≠ "") :
    (v ∈ cityOptions users →
      filteredUsers users "" v "" = users.filter (fun u => u.address.city == v) ∧
      filteredUsers users "" v "" ≠ []) ∧
    (v ∈ companyOptions users →
      filteredUsers users "" "" v = users.filter (fun u => u.company.name == v) ∧
      filteredUsers users "" "" v ≠ []) := by
  have hs : strLower (strTrim "") = "" := by decide
  constructor
  · intro hc
    have hcity : filteredUsers users "" v "" = users.filter (fun u => u.address.city == v) := by
      unfold filteredUsers
      refine List.filter_congr (fun a _ => ?_)
      simp [hs, hv]
    refine ⟨hcity, ?_⟩
    rw [hcity]
    rcases List.mem_map.1 ((cityOptions_mem users v).1 hc) with ⟨u, hu, hcu⟩
    exact List.ne_nil_of_mem (List.mem_filter.2 ⟨hu, by simp [hcu]⟩)
  · intro hd
    have hcomp : filteredUsers users "" "" v = users.filter (fun u => u.company.name == v) := by
      unfold filteredUsers
      refine List.filter_congr (fun a _ => ?_)
      simp [hs, hv]
    refine ⟨hcomp, ?_⟩
    rw [hcomp]
    rcases List.mem_map.1 ((companyOptions_mem users v).1 hd) with ⟨u, hu, hdu⟩
    exact List.ne_nil_of_mem (List.mem_filter.2 ⟨hu, by simp [hdu]⟩)

/-- Witness for `optionValue_filter_exact`: the city half at a concrete
city option and the company half at a concrete company option, on a
one-record collection. -/
theorem optionValue_filter_exact_witness :
    (filteredUsers [sampleUser] "" "Gwenborough" "" =
        [sampleUser].filter (fun u => u.address.city == "Gwenborough") ∧
      filteredUsers [sampleUser] "" "Gwenborough" "" ≠ []) ∧
    (filteredUsers [sampleUser] "" "" "Romaguera-Crona" =
        [sampleUser].filter (fun u => u.company.name == "Romaguera-Crona") ∧
      filteredUsers [sampleUser] "" "" "Romaguera-Crona" ≠ []) :=
  ⟨(optionValue_filter_exact [sampleUser] "Gwenborough" (by decide)).1
      ((cityOptions_mem _ _).2 (by decide)),
   (optionValue_filter_exact [sampleUser] "Romaguera-Crona" (by decide)).2
      ((companyOptions_mem _ _).2 (by decide))⟩

/-- C9 counterexample: when a record's city is the empty string, the empty
string is itself a derived city option, but selecting it applies no
constraint at all (empty means "all cities"), so the result is the full
collection rather than exactly the records whose city equals it. -/
theorem cityOption_empty_cex :
    "" ∈ cityOptions [emptyCityUser, sampleUser] ∧
    filteredUsers [emptyCityUser, sampleUser] "" "" "" ≠
      [emptyCityUser, sampleUser].filter (fun u => u.address.city == "") := by
  exact ⟨(cityOptions_mem _ _).2 (by decide), by decide⟩
